import Mathlib

/-!
Shallow embedding of the Lumora server booking and payment routes
(src/index.js) and proofs about them.

Document ids are modelled as natural numbers drawn from a fresh-id
counter in the database state; timestamps are natural numbers supplied
by the caller (the value of new Date() at the moment of the call);
monetary amounts are rationals, so that division of the minor-unit
total by 100 is exact.
Each Express route handler becomes a pure function from its request
data and the database state to a result and a new database state.
-/

namespace Lumora

/-- A booking document, with the fields the booking routes read or write. -/
structure Booking where
  id : Nat
  serviceId : Nat
  userEmail : String
  serviceName : String
  bookingDate : String
  status : String
  isPaid : Bool
  paymentId : Option Nat
  paidAt : Option Nat
  assignedAt : Option Nat
  decoratorEmail : Option String
  decoratorName : Option String
  statusHistory : List (String × Nat)
  createdAt : Nat
  updatedAt : Option Nat
deriving Repr, DecidableEq

/-- A payment document as inserted by the payment routes. -/
structure Payment where
  id : Nat
  bookingId : Nat
  userEmail : String
  amount : ℚ
  transactionId : String
  serviceName : String
  createdAt : Nat
deriving Repr, DecidableEq

/-- A service document; only the bookingCount field is in scope. -/
structure Service where
  id : Nat
  bookingCount : Nat
deriving Repr, DecidableEq

/-- The collections the booking and payment routes touch, plus the
fresh-id counter standing for ObjectId generation. -/
structure DB where
  services : List Service
  bookings : List Booking
  payments : List Payment
  nextId : Nat
deriving Repr, DecidableEq

/-- The empty database, before any route has run. -/
def emptyDB : DB := { services := [], bookings := [], payments := [], nextId := 0 }

/-- Mongo updateOne semantics: rewrite the first document matching the
filter, leave the rest alone. -/
def updateFirst (p : α → Bool) (f : α → α) : List α → List α
  | [] => []
  | a :: as => if p a then f a :: as else a :: updateFirst p f as

/-- The checkout session record the payment provider returns from
retrieveSession, with the fields the verify-payment route reads. -/
structure StripeSession where
  payment_status : String
  amount_total : Int
  customer_email : String
  payment_intent : String
  metaServiceName : String
deriving Repr, DecidableEq

/-- Request body of POST /api/bookings, the fields the handler and the
claims use; the handler overwrites status, isPaid and createdAt after
spreading the body, so those are not part of the body model. -/
structure BookingBody where
  serviceId : Nat
  userEmail : String
  serviceName : String
  bookingDate : String
deriving Repr, DecidableEq

/-- The booking document POST /api/bookings inserts: the body spread
out, then status pending, isPaid false and createdAt now on top. -/
def newBookingDoc (body : BookingBody) (now bid : Nat) : Booking :=
  { id := bid, serviceId := body.serviceId, userEmail := body.userEmail,
    serviceName := body.serviceName, bookingDate := body.bookingDate,
    status := "pending", isPaid := false, paymentId := none, paidAt := none,
    assignedAt := none, decoratorEmail := none, decoratorName := none,
    statusHistory := [], createdAt := now, updatedAt := none }

/-- POST /api/bookings: insert the booking with status pending,
isPaid false, createdAt now, then increment bookingCount on the
service the booking references. Returns the inserted id. -/
def createBooking (body : BookingBody) (now : Nat) (db : DB) : Nat × DB :=
  let bid := db.nextId
  let booking := newBookingDoc body now bid
  let db1 : DB := { db with bookings := db.bookings ++ [booking], nextId := db.nextId + 1 }
  let services1 := updateFirst (fun s => s.id == body.serviceId)
    (fun s => { s with bookingCount := s.bookingCount + 1 }) db1.services
  (bid, { db1 with services := services1 })

/-- Result of a Mongo updateOne as sent back by the handlers. -/
structure UpdateResult where
  matchedCount : Nat
deriving Repr, DecidableEq

/-- PATCH /api/bookings/:id/assign: set decoratorEmail, decoratorName,
status assigned and assignedAt on the matching booking; the update
document touches no other field. -/
def assignDecorator (id : Nat) (dEmail dName : String) (now : Nat) (db : DB) :
    UpdateResult × DB :=
  let bookings1 := updateFirst (fun b => b.id == id)
    (fun b => { b with decoratorEmail := some dEmail, decoratorName := some dName,
                       status := "assigned", assignedAt := some now }) db.bookings
  ({ matchedCount := if db.bookings.any (fun b => b.id == id) then 1 else 0 },
   { db with bookings := bookings1 })

/-- Set a key in a statusHistory map, overwriting any previous value,
as the dotted statusHistory.<status> update path does. -/
def setHistory (k : String) (v : Nat) (m : List (String × Nat)) : List (String × Nat) :=
  m.filter (fun kv => kv.1 ≠ k) ++ [(k, v)]

/-- PATCH /api/bookings/:id/status: set status to the request value and
record statusHistory.<status> = now; no validation of the value. -/
def updateStatus (id : Nat) (status : String) (now : Nat) (db : DB) : DB :=
  let bookings1 := updateFirst (fun b => b.id == id)
    (fun b => { b with status := status,
                       statusHistory := setHistory status now b.statusHistory }) db.bookings
  { db with bookings := bookings1 }

/-- Request body of PATCH /api/bookings/:id; any subset of these
fields may be present and the handler $set-merges whatever is there. -/
structure UpdateBody where
  isPaid : Option Bool
  paymentId : Option (Option Nat)
  status : Option String
  bookingDate : Option String
deriving Repr, DecidableEq

/-- Apply the $set of a generic update body to one booking, plus the
updatedAt stamp the handler always adds. -/
def applyUpdate (u : UpdateBody) (now : Nat) (b : Booking) : Booking :=
  let b1 := match u.isPaid with | some v => { b with isPaid := v } | none => b
  let b2 := match u.paymentId with | some v => { b1 with paymentId := v } | none => b1
  let b3 := match u.status with | some v => { b2 with status := v } | none => b2
  let b4 := match u.bookingDate with | some v => { b3 with bookingDate := v } | none => b3
  { b4 with updatedAt := some now }

/-- PATCH /api/bookings/:id: merge the request body into the matching
booking with updatedAt = now; no field of the body is rejected. -/
def genericUpdate (id : Nat) (u : UpdateBody) (now : Nat) (db : DB) : DB :=
  { db with bookings := updateFirst (fun b => b.id == id) (applyUpdate u now) db.bookings }

/-- Outcome of DELETE /api/bookings/:id. The handler never produces a
notFound outcome: when findOne returns null it dereferences
booking.userEmail on that null, which surfaces as an unhandled error. -/
inductive CancelResult where
  | forbidden
  | conflictPaid
  | deleted
  | notFound
  | unhandledError
deriving Repr, DecidableEq

/-- DELETE /api/bookings/:id: findOne the booking, 403 if the requester
email differs from its userEmail, 400 if it is paid, otherwise
deleteOne; a missing booking makes the null dereference throw. -/
def cancelBooking (id : Nat) (requesterEmail : String) (db : DB) : CancelResult × DB :=
  match db.bookings.find? (fun b => b.id == id) with
  | none => (.unhandledError, db)
  | some b =>
    if b.userEmail ≠ requesterEmail then (.forbidden, db)
    else if b.isPaid then (.conflictPaid, db)
    else (.deleted, { db with bookings := db.bookings.eraseP (fun x => x.id == id) })

/-- Request body of POST /api/payments: the handler spreads it into the
payment document verbatim, so every financial field here is
client-chosen. -/
structure PaymentBody where
  bookingId : Nat
  userEmail : String
  amount : ℚ
  transactionId : String
  serviceName : String
deriving Repr, DecidableEq

/-- The booking update both settlement routes apply: isPaid true,
paymentId pointing at the inserted payment, paidAt stamped. -/
def settleBooking (pid now : Nat) (b : Booking) : Booking :=
  { b with isPaid := true, paymentId := some pid, paidAt := some now }

/-- POST /api/payments: insert the client-supplied payment body with
createdAt = now, then mark the referenced booking paid and point it at
the new payment. Returns the inserted payment id. -/
def savePayment (body : PaymentBody) (now : Nat) (db : DB) : Nat × DB :=
  let pid := db.nextId
  let payment : Payment :=
    { id := pid, bookingId := body.bookingId, userEmail := body.userEmail,
      amount := body.amount, transactionId := body.transactionId,
      serviceName := body.serviceName, createdAt := now }
  let db1 : DB := { db with payments := db.payments ++ [payment], nextId := db.nextId + 1 }
  let bookings1 := updateFirst (fun b => b.id == body.bookingId)
    (settleBooking pid now) db1.bookings
  (pid, { db1 with bookings := bookings1 })

/-- Outcome of POST /api/verify-payment. -/
inductive VerifyResult where
  | success
  | declined
deriving Repr, DecidableEq

/-- The payment document the verify-payment route builds from the
provider session: amount is the provider total divided back out of
minor units, transactionId is the provider payment_intent reference. -/
def settledPayment (s : StripeSession) (bookingId pid now : Nat) : Payment :=
  { id := pid, bookingId := bookingId, userEmail := s.customer_email,
    amount := (s.amount_total : ℚ) / 100, transactionId := s.payment_intent,
    serviceName := s.metaServiceName, createdAt := now }

/-- POST /api/verify-payment: retrieve the session from the provider;
if its payment_status is paid, insert a payment built from the session
and mark the booking paid; otherwise report declined with no mutation.
There is no check for an existing payment with the same session. -/
def verifyPayment (retrieve : String → StripeSession) (sessionId : String)
    (bookingId now : Nat) (db : DB) : VerifyResult × DB :=
  let s := retrieve sessionId
  if s.payment_status = "paid" then
    let pid := db.nextId
    let payments1 := db.payments ++ [settledPayment s bookingId pid now]
    let db1 : DB := { db with payments := payments1, nextId := db.nextId + 1 }
    let bookings1 := updateFirst (fun b => b.id == bookingId)
      (settleBooking pid now) db1.bookings
    (.success, { db1 with bookings := bookings1 })
  else (.declined, db)

/-- n successive POST /api/bookings calls with the same body. -/
def createN (body : BookingBody) (now : Nat) : Nat → DB → DB
  | 0, db => db
  | n + 1, db => createN body now n (createBooking body now db).2

/-- One public operation of the booking and payment surface, as a step
between database states. -/
inductive Step : DB → DB → Prop where
  | createB (body : BookingBody) (now : Nat) (db : DB) :
      Step db (createBooking body now db).2
  | assign (id : Nat) (dEmail dName : String) (now : Nat) (db : DB) :
      Step db (assignDecorator id dEmail dName now db).2
  | updStatus (id : Nat) (status : String) (now : Nat) (db : DB) :
      Step db (updateStatus id status now db)
  | genUpd (id : Nat) (u : UpdateBody) (now : Nat) (db : DB) :
      Step db (genericUpdate id u now db)
  | cancel (id : Nat) (requesterEmail : String) (db : DB) :
      Step db (cancelBooking id requesterEmail db).2
  | savePay (body : PaymentBody) (now : Nat) (db : DB) :
      Step db (savePayment body now db).2
  | verifyPay (retrieve : String → StripeSession) (sessionId : String)
      (bookingId now : Nat) (db : DB) :
      Step db (verifyPayment retrieve sessionId bookingId now db).2

/-- Database states reachable from the empty database by the public
operations. -/
def Reachable (db : DB) : Prop := Relation.ReflTransGen Step emptyDB db

/-- The paid-booking referential invariant of the spec: a paid booking
points at an existing payment for this booking, an unpaid booking has
no paymentId. -/
def paidInvariant (db : DB) : Prop :=
  ∀ b ∈ db.bookings,
    (b.isPaid = true → ∃ p ∈ db.payments, b.paymentId = some p.id ∧ p.bookingId = b.id) ∧
    (b.isPaid = false → b.paymentId = none)

instance (db : DB) : Decidable (paidInvariant db) := by
  unfold paidInvariant; infer_instance

/-! Helper lemmas about updateFirst. -/

theorem find?_updateFirst (p : α → Bool) (f : α → α)
    (hpf : ∀ a, p a = true → p (f a) = true) :
    ∀ l : List α, (updateFirst p f l).find? p = (l.find? p).map f := by
  intro l
  induction l with
  | nil => rfl
  | cons a as ih =>
    cases h : p a with
    | true => simp [updateFirst, h, List.find?_cons_of_pos, hpf a h]
    | false => simp [updateFirst, h, List.find?_cons_of_neg, ih]

theorem updateFirst_of_find?_eq_none (p : α → Bool) (f : α → α) :
    ∀ l : List α, l.find? p = none → updateFirst p f l = l := by
  intro l
  induction l with
  | nil => intro _; rfl
  | cons a as ih =>
    intro h
    rw [List.find?_eq_none] at h
    have ha : p a = false := by
      cases hpa : p a with
      | true => exact absurd hpa (h a (List.mem_cons_self a as))
      | false => rfl
    have has : as.find? p = none := by
      rw [List.find?_eq_none]
      intro x hx
      exact h x (List.mem_cons_of_mem a hx)
    simp [updateFirst, ha, ih has]

theorem any_of_find?_eq_some {p : α → Bool} {l : List α} {a : α}
    (h : l.find? p = some a) : l.any p = true :=
  List.any_eq_true.mpr ⟨a, List.mem_of_find?_eq_some h, List.find?_some h⟩

theorem any_of_find?_eq_none {p : α → Bool} {l : List α}
    (h : l.find? p = none) : l.any p = false := by
  rw [List.find?_eq_none] at h
  rw [List.any_eq_false]
  intro x hx
  simpa using h x hx

/-! Sample data used by witnesses and concrete evaluations. -/

/-- A sample booking-creation request body. -/
def sampleBody : BookingBody :=
  { serviceId := 0, userEmail := "u@x.com", serviceName := "Decor",
    bookingDate := "2025-01-10" }

/-- A database holding one service with bookingCount 0. -/
def oneServiceDB : DB :=
  { services := [{ id := 0, bookingCount := 0 }], bookings := [], payments := [],
    nextId := 1 }

/-- A sample unpaid pending booking with id 0. -/
def sampleBooking : Booking := newBookingDoc sampleBody 0 0

/-- A database holding just the sample booking. -/
def oneBookingDB : DB :=
  { services := [], bookings := [sampleBooking], payments := [], nextId := 1 }

/-- A provider stub that reports every session as paid with a 150000
minor-unit total. -/
def paidRetrieve : String → StripeSession := fun _ =>
  { payment_status := "paid", amount_total := 150000, customer_email := "u@x.com",
    payment_intent := "pi_1", metaServiceName := "Decor" }

/-! Service counter lemmas. -/

theorem createBooking_services_find? (body : BookingBody) (now : Nat) (db : DB)
    (s : Service)
    (hs : db.services.find? (fun x => x.id == body.serviceId) = some s) :
    (createBooking body now db).2.services.find? (fun x => x.id == body.serviceId)
      = some { s with bookingCount := s.bookingCount + 1 } := by
  have hd : (createBooking body now db).2.services
      = updateFirst (fun x => x.id == body.serviceId)
          (fun x => { x with bookingCount := x.bookingCount + 1 }) db.services := rfl
  have key := find?_updateFirst (fun x : Service => x.id == body.serviceId)
    (fun x : Service => { x with bookingCount := x.bookingCount + 1 })
    (fun a h => h) db.services
  rw [hd, key, hs]
  rfl

theorem createN_services_find? (body : BookingBody) (now : Nat) :
    ∀ (n : Nat) (db : DB) (s : Service),
      db.services.find? (fun x => x.id == body.serviceId) = some s →
      (createN body now n db).services.find? (fun x => x.id == body.serviceId)
        = some { s with bookingCount := s.bookingCount + n } := by
  intro n
  induction n with
  | zero =>
    intro db s hs
    simpa using hs
  | succ n ih =>
    intro db s hs
    have h1 := createBooking_services_find? body now db s hs
    have h2 := ih (createBooking body now db).2
      { s with bookingCount := s.bookingCount + 1 } h1
    have hstep : createN body now (n + 1) db
        = createN body now n (createBooking body now db).2 := rfl
    rw [hstep, h2]
    have harith : s.bookingCount + 1 + n = s.bookingCount + (n + 1) := by omega
    simp [harith]

/-- C7: a successful Create yields a booking with status pending,
isPaid false, createdAt now, and increments the referenced service
bookingCount by exactly one; n successive creations increment it by n. -/
theorem create_booking_spec (body : BookingBody) (now : Nat) (db : DB) (s : Service)
    (hs : db.services.find? (fun x => x.id == body.serviceId) = some s) :
    (createBooking body now db).2.bookings
      = db.bookings ++ [newBookingDoc body now db.nextId] ∧
    (newBookingDoc body now db.nextId).status = "pending" ∧
    (newBookingDoc body now db.nextId).isPaid = false ∧
    (newBookingDoc body now db.nextId).createdAt = now ∧
    (createBooking body now db).2.services.find? (fun x => x.id == body.serviceId)
      = some { s with bookingCount := s.bookingCount + 1 } ∧
    ∀ n : Nat, (createN body now n db).services.find? (fun x => x.id == body.serviceId)
      = some { s with bookingCount := s.bookingCount + n } :=
  ⟨rfl, rfl, rfl, rfl, createBooking_services_find? body now db s hs,
   fun n => createN_services_find? body now n db s hs⟩

/-- Witness for C7 at a concrete service and three creations. -/
theorem create_booking_spec_witness :
    oneServiceDB.services.find? (fun x => x.id == sampleBody.serviceId)
      = some { id := 0, bookingCount := 0 } ∧
    (createBooking sampleBody 5 oneServiceDB).2.services.find?
        (fun x => x.id == sampleBody.serviceId) = some { id := 0, bookingCount := 1 } ∧
    (createN sampleBody 5 3 oneServiceDB).services.find?
        (fun x => x.id == sampleBody.serviceId) = some { id := 0, bookingCount := 3 } :=
  ⟨rfl,
   (create_booking_spec sampleBody 5 oneServiceDB { id := 0, bookingCount := 0 }
     rfl).2.2.2.2.1,
   (create_booking_spec sampleBody 5 oneServiceDB { id := 0, bookingCount := 0 }
     rfl).2.2.2.2.2 3⟩

/-- C2: when the provider reports the session paid, verify-payment
persists a payment carrying the provider amount divided by 100 and the
provider transaction reference, and settles the booking; on any other
provider status it reports declined and mutates nothing. -/
theorem verify_payment_spec (retrieve : String → StripeSession) (sessionId : String)
    (bid now : Nat) (db : DB) (b : Booking)
    (hb : db.bookings.find? (fun x => x.id == bid) = some b) :
    ((retrieve sessionId).payment_status = "paid" →
      (verifyPayment retrieve sessionId bid now db).1 = VerifyResult.success ∧
      (verifyPayment retrieve sessionId bid now db).2.payments
        = db.payments ++ [settledPayment (retrieve sessionId) bid db.nextId now] ∧
      (settledPayment (retrieve sessionId) bid db.nextId now).amount
        = ((retrieve sessionId).amount_total : ℚ) / 100 ∧
      (settledPayment (retrieve sessionId) bid db.nextId now).transactionId
        = (retrieve sessionId).payment_intent ∧
      (settledPayment (retrieve sessionId) bid db.nextId now).bookingId = bid ∧
      (verifyPayment retrieve sessionId bid now db).2.bookings.find?
          (fun x => x.id == bid)
        = some { b with isPaid := true, paymentId := some db.nextId,
                        paidAt := some now }) ∧
    ((retrieve sessionId).payment_status ≠ "paid" →
      verifyPayment retrieve sessionId bid now db = (VerifyResult.declined, db)) := by
  constructor
  · intro hpaid
    refine ⟨?_, ?_, rfl, rfl, rfl, ?_⟩
    · simp [verifyPayment, hpaid]
    · simp [verifyPayment, hpaid]
    · have hd : (verifyPayment retrieve sessionId bid now db).2.bookings
          = updateFirst (fun x => x.id == bid) (settleBooking db.nextId now)
              db.bookings := by
        simp [verifyPayment, hpaid]
      have key := find?_updateFirst (fun x : Booking => x.id == bid)
        (settleBooking db.nextId now) (fun a h => h) db.bookings
      rw [hd, key, hb]
      rfl
  · intro hnot
    simp [verifyPayment, hnot]

/-- Witness for C2 at a concrete paid session. -/
theorem verify_payment_spec_witness :
    oneBookingDB.bookings.find? (fun x => x.id == 0) = some sampleBooking ∧
    (paidRetrieve "sess_1").payment_status = "paid" ∧
    (verifyPayment paidRetrieve "sess_1" 0 7 oneBookingDB).1 = VerifyResult.success ∧
    (verifyPayment paidRetrieve "sess_1" 0 7 oneBookingDB).2.payments
      = oneBookingDB.payments
        ++ [settledPayment (paidRetrieve "sess_1") 0 oneBookingDB.nextId 7] :=
  ⟨rfl, rfl,
   ((verify_payment_spec paidRetrieve "sess_1" 0 7 oneBookingDB sampleBooking
     rfl).1 rfl).1,
   ((verify_payment_spec paidRetrieve "sess_1" 0 7 oneBookingDB sampleBooking
     rfl).1 rfl).2.1⟩

/-- A paid copy of the sample booking, for cancel and replay scenarios. -/
def paidBooking : Booking := { sampleBooking with isPaid := true, paymentId := some 3 }

/-- A database holding just the paid booking. -/
def onePaidBookingDB : DB :=
  { services := [], bookings := [paidBooking], payments := [], nextId := 4 }

/-- C6: cancelling an existing booking is Forbidden for a requester
other than its owner, Conflict for a paid booking with the store left
unchanged, and otherwise deletes the booking; a deletion therefore
happens only when isPaid was false. -/
theorem cancel_booking_spec (id : Nat) (requesterEmail : String) (db : DB) (b : Booking)
    (hb : db.bookings.find? (fun x => x.id == id) = some b) :
    (b.userEmail ≠ requesterEmail →
      cancelBooking id requesterEmail db = (CancelResult.forbidden, db)) ∧
    (b.userEmail = requesterEmail → b.isPaid = true →
      cancelBooking id requesterEmail db = (CancelResult.conflictPaid, db)) ∧
    (b.userEmail = requesterEmail → b.isPaid = false →
      cancelBooking id requesterEmail db
        = (CancelResult.deleted,
           { db with bookings := db.bookings.eraseP (fun x => x.id == id) })) ∧
    ((cancelBooking id requesterEmail db).1 = CancelResult.deleted → b.isPaid = false) := by
  refine ⟨?_, ?_, ?_, ?_⟩
  · intro hne
    simp [cancelBooking, hb, hne]
  · intro he hp
    simp [cancelBooking, hb, he, hp]
  · intro he hp
    simp [cancelBooking, hb, he, hp]
  · intro hdel
    by_cases he : b.userEmail = requesterEmail
    · cases hp : b.isPaid with
      | true => simp [cancelBooking, hb, he, hp] at hdel
      | false => rfl
    · simp [cancelBooking, hb, he] at hdel

/-- Witness for C6: cancelling the concrete paid booking by its owner
is a Conflict and leaves the database unchanged. -/
theorem cancel_booking_spec_witness :
    onePaidBookingDB.bookings.find? (fun x => x.id == 0) = some paidBooking ∧
    paidBooking.userEmail = "u@x.com" ∧
    paidBooking.isPaid = true ∧
    cancelBooking 0 "u@x.com" onePaidBookingDB
      = (CancelResult.conflictPaid, onePaidBookingDB) :=
  ⟨rfl, rfl, rfl,
   (cancel_booking_spec 0 "u@x.com" onePaidBookingDB paidBooking rfl).2.1 rfl rfl⟩

/-- C10: cancelling a booking id that resolves to no document does not
produce a NotFound outcome: the handler dereferences the null findOne
result and the request dies with an unhandled error. -/
theorem cancel_missing_booking_unhandled (id : Nat) (requesterEmail : String) (db : DB)
    (h : db.bookings.find? (fun b => b.id == id) = none) :
    cancelBooking id requesterEmail db = (CancelResult.unhandledError, db) ∧
    (cancelBooking id requesterEmail db).1 ≠ CancelResult.notFound := by
  constructor
  · simp [cancelBooking, h]
  · simp [cancelBooking, h]

/-- Witness for C10 on the empty database. -/
theorem cancel_missing_booking_unhandled_witness :
    emptyDB.bookings.find? (fun b => b.id == 0) = none ∧
    cancelBooking 0 "u@x.com" emptyDB = (CancelResult.unhandledError, emptyDB) ∧
    (cancelBooking 0 "u@x.com" emptyDB).1 ≠ CancelResult.notFound :=
  ⟨rfl, (cancel_missing_booking_unhandled 0 "u@x.com" emptyDB rfl).1,
   (cancel_missing_booking_unhandled 0 "u@x.com" emptyDB rfl).2⟩

/-- C8 counterexample: assigning a decorator to the concrete pending
booking leaves its statusHistory empty — no assigned entry is appended
— and assigning to an absent id yields a zero-match result on an
unchanged database rather than a NotFound failure. -/
theorem assign_decorator_counterexample :
    ((assignDecorator 0 "d@x.com" "Dina" 7 oneBookingDB).2.bookings.find?
        (fun b => b.id == 0)).map Booking.statusHistory = some [] ∧
    assignDecorator 5 "d@x.com" "Dina" 7 oneBookingDB
      = ({ matchedCount := 0 }, oneBookingDB) :=
  ⟨rfl, rfl⟩

/-- C8 amended: assignment sets decoratorEmail, decoratorName, status
assigned and assignedAt on the matching booking and leaves every other
field, statusHistory included, unchanged; with no matching booking the
call reports zero matched documents and changes nothing. -/
theorem assign_decorator_amended (id : Nat) (dEmail dName : String) (now : Nat)
    (db : DB) :
    (∀ b, db.bookings.find? (fun x => x.id == id) = some b →
      (assignDecorator id dEmail dName now db).1.matchedCount = 1 ∧
      (assignDecorator id dEmail dName now db).2.bookings.find? (fun x => x.id == id)
        = some { b with decoratorEmail := some dEmail, decoratorName := some dName,
                        status := "assigned", assignedAt := some now }) ∧
    (db.bookings.find? (fun x => x.id == id) = none →
      assignDecorator id dEmail dName now db = ({ matchedCount := 0 }, db)) := by
  constructor
  · intro b hb
    constructor
    · simp [assignDecorator, any_of_find?_eq_some hb]
    · have hd : (assignDecorator id dEmail dName now db).2.bookings
          = updateFirst (fun x : Booking => x.id == id)
              (fun x => { x with decoratorEmail := some dEmail,
                                 decoratorName := some dName,
                                 status := "assigned", assignedAt := some now })
              db.bookings := rfl
      have key := find?_updateFirst (fun x : Booking => x.id == id)
        (fun x : Booking => { x with decoratorEmail := some dEmail,
                                     decoratorName := some dName,
                                     status := "assigned", assignedAt := some now })
        (fun a h => h) db.bookings
      rw [hd, key, hb]
      rfl
  · intro h
    have h1 := any_of_find?_eq_none h
    have h2 := updateFirst_of_find?_eq_none (fun x : Booking => x.id == id)
      (fun x => { x with decoratorEmail := some dEmail, decoratorName := some dName,
                         status := "assigned", assignedAt := some now })
      db.bookings h
    simp [assignDecorator, h1, h2]

/-- Witness for the amended C8 at the concrete pending booking. -/
theorem assign_decorator_amended_witness :
    oneBookingDB.bookings.find? (fun x => x.id == 0) = some sampleBooking ∧
    (assignDecorator 0 "d@x.com" "Dina" 7 oneBookingDB).1.matchedCount = 1 ∧
    (assignDecorator 0 "d@x.com" "Dina" 7 oneBookingDB).2.bookings.find?
        (fun x => x.id == 0)
      = some { sampleBooking with decoratorEmail := some "d@x.com",
                                  decoratorName := some "Dina",
                                  status := "assigned", assignedAt := some 7 } :=
  ⟨rfl,
   ((assign_decorator_amended 0 "d@x.com" "Dina" 7 oneBookingDB).1 sampleBooking
     rfl).1,
   ((assign_decorator_amended 0 "d@x.com" "Dina" 7 oneBookingDB).1 sampleBooking
     rfl).2⟩

/-- A payment request body carrying a client-chosen amount 999. -/
def clientPaymentBody : PaymentBody :=
  { bookingId := 0, userEmail := "u@x.com", amount := 999,
    transactionId := "tx_fake", serviceName := "Decor" }

/-- A generic-update body that sets only isPaid. -/
def setPaidBody : UpdateBody :=
  { isPaid := some true, paymentId := none, status := none, bookingDate := none }

/-- A generic-update body that tries to set all three protected fields. -/
def protectedFieldsBody : UpdateBody :=
  { isPaid := some true, paymentId := some (some 5), status := some "completed",
    bookingDate := none }

/-- The sample booking moved to completed, in a singleton database. -/
def completedBookingDB : DB :=
  { services := [], bookings := [{ sampleBooking with status := "completed" }],
    payments := [], nextId := 1 }

/-- C1: replaying verify-payment for the same paid session inserts a
second Payment and re-stamps paidAt; the route has no idempotence
guard. -/
theorem verify_payment_replay_duplicates :
    (verifyPayment paidRetrieve "sess_1" 0 10 oneBookingDB).2.payments.length = 1 ∧
    ((verifyPayment paidRetrieve "sess_1" 0 20
        (verifyPayment paidRetrieve "sess_1" 0 10 oneBookingDB).2).2.payments.length
      = 2) ∧
    (((verifyPayment paidRetrieve "sess_1" 0 10 oneBookingDB).2.bookings.find?
        (fun b => b.id == 0)).map Booking.paidAt = some (some 10)) ∧
    (((verifyPayment paidRetrieve "sess_1" 0 20
        (verifyPayment paidRetrieve "sess_1" 0 10 oneBookingDB).2).2.bookings.find?
        (fun b => b.id == 0)).map Booking.paidAt = some (some 20)) :=
  ⟨rfl, rfl, rfl, rfl⟩

/-- C3: POST /api/payments persists the request body verbatim, so the
client-chosen amount 999 lands in the payments store as the recorded
amount, and the booking is marked paid on the strength of it. -/
theorem save_payment_trusts_client_amount :
    ((savePayment clientPaymentBody 5 oneBookingDB).2.payments.map Payment.amount
      = [999]) ∧
    (((savePayment clientPaymentBody 5 oneBookingDB).2.bookings.find?
        (fun b => b.id == 0)).map Booking.isPaid = some true) :=
  ⟨rfl, rfl⟩

/-- C4: a reachable state violates the paid-booking referential
invariant — create a booking, then set isPaid through the generic
update route, leaving isPaid true with no paymentId and no Payment. -/
theorem paid_invariant_violated :
    ∃ db, Reachable db ∧ ¬ paidInvariant db := by
  refine ⟨genericUpdate 0 setPaidBody 1 (createBooking sampleBody 0 emptyDB).2,
    ?_, ?_⟩
  · exact Relation.ReflTransGen.tail
      (Relation.ReflTransGen.single (Step.createB sampleBody 0 emptyDB))
      (Step.genUpd 0 setPaidBody 1 (createBooking sampleBody 0 emptyDB).2)
  · decide

/-- C5: the status route accepts a backward transition — a completed
booking is moved back to pending instead of being rejected. -/
theorem update_status_allows_backward :
    (completedBookingDB.bookings.map Booking.status = ["completed"]) ∧
    ((updateStatus 0 "pending" 9 completedBookingDB).bookings.map Booking.status
      = ["pending"]) :=
  ⟨rfl, rfl⟩

/-- C9: the generic update route merges isPaid, paymentId and status
from the request body instead of rejecting them. -/
theorem generic_update_merges_protected_fields :
    ((oneBookingDB.bookings.find? (fun b => b.id == 0)).map Booking.isPaid
      = some false) ∧
    ((oneBookingDB.bookings.find? (fun b => b.id == 0)).map Booking.paymentId
      = some none) ∧
    ((oneBookingDB.bookings.find? (fun b => b.id == 0)).map Booking.status
      = some "pending") ∧
    (((genericUpdate 0 protectedFieldsBody 3 oneBookingDB).bookings.find?
        (fun b => b.id == 0)).map Booking.isPaid = some true) ∧
    (((genericUpdate 0 protectedFieldsBody 3 oneBookingDB).bookings.find?
        (fun b => b.id == 0)).map Booking.paymentId = some (some 5)) ∧
    (((genericUpdate 0 protectedFieldsBody 3 oneBookingDB).bookings.find?
        (fun b => b.id == 0)).map Booking.status = some "completed") :=
  ⟨rfl, rfl, rfl, rfl, rfl, rfl⟩

end Lumora
